import Mathlib

/-!
Shallow embedding of the SQLite-backed bookmark model in
`src/model_sqlite.py` (class `ModelSQLite`).

The store is modelled as three list-based tables mirroring the schema
built by `create_database`:

* `tree`   — guid (PK), parent_guid, id_no, name (UNIQUE), date_added, node_type;
* `folder` — node_id (PK, FK → tree.guid ON DELETE CASCADE), date_modified;
* `url`    — node_id (PK, FK → tree.guid ON DELETE CASCADE), url, icon, keywords.

Rows are kept in insertion order; `SELECT ... WHERE col = ?` followed by
`fetchone()` is modelled by `List.find?`, `fetchall` by `List.filter`,
`UPDATE ... WHERE` by `List.map` with a conditional rewrite, and
`DELETE ... WHERE` by `List.filter`.  The `ON DELETE CASCADE` rule on the
two extension tables is part of the semantics of deleting a `tree` row.

Mutating operations return `Except DBError DB`; an error means the
transaction was never committed, so the caller's store is unchanged.
The non-deterministic inputs of the Python code — `uuid.uuid4()` and
`datetime.today()` — are passed in as explicit string parameters
(`fresh_guid`, `now_ts`).

Python failure modes are modelled precisely: a missing dictionary key is
`KeyError`, unpacking `cursor.fetchone()` when it returned `None` is
`TypeErrorUnpackNone` (`add_node`, line 109), `None | dict` is
`TypeErrorMergeNone` (`update_node`, line 208), subscripting `None` is
`TypeErrorNoneSubscript` (`update_node` line 217, `get_node` line 286),
and `sqlite3.IntegrityError` is one of the `ConstraintViolation*`
constructors.
-/

namespace BmConv

/-- Row of the main `tree` table. -/
structure TreeRow where
  guid : String
  parent_guid : Option String
  id_no : Int
  name : String
  date_added : String
  node_type : Bool
  deriving Repr, DecidableEq

/-- Row of the `folder` extension table. -/
structure FolderRow where
  node_id : String
  date_modified : String
  deriving Repr, DecidableEq

/-- Row of the `url` extension table. -/
structure UrlRow where
  node_id : String
  url : String
  icon : String
  keywords : String
  deriving Repr, DecidableEq

/-- The whole store: the three tables, rows in insertion order. -/
structure DB where
  tree : List TreeRow
  folder : List FolderRow
  url : List UrlRow
  deriving Repr, DecidableEq

/-- Failures surfaced by the model layer: the typed exceptions of the
`exceptions` module, `sqlite3.IntegrityError`, and the untyped Python
errors (`KeyError`, `TypeError`) certain code paths actually raise. -/
inductive DBError where
  | NodeNotExists : String → DBError
  | FolderNotEmpty : String → DBError
  | ConstraintViolationGuid : String → DBError
  | ConstraintViolationName : String → DBError
  | ConstraintViolationFolderPK : String → DBError
  | ConstraintViolationUrlPK : String → DBError
  | TypeErrorUnpackNone : DBError
  | TypeErrorMergeNone : DBError
  | TypeErrorNoneSubscript : DBError
  | KeyError : String → DBError
  deriving Repr, DecidableEq

/-- Does the error correspond to `sqlite3.IntegrityError`
(a relational constraint violation)? -/
def DBError.isConstraintViolation : DBError → Bool
  | .ConstraintViolationGuid _ => true
  | .ConstraintViolationName _ => true
  | .ConstraintViolationFolderPK _ => true
  | .ConstraintViolationUrlPK _ => true
  | _ => false

/-- Is the outcome the typed `NodeNotExists` exception? -/
def errIsNodeNotExists : Except DBError DB → Bool
  | .error (.NodeNotExists _) => true
  | _ => false

/-- Sparse attribute dictionary handed to `add_node`
(`attr_dict : dict`); absent keys are `none`. -/
structure Attrs where
  guid : Option String := none
  parent_name : Option String := none
  id_no : Option Int := none
  name : Option String := none
  date_added : Option String := none
  date_modified : Option String := none
  url : Option String := none
  icon : Option String := none
  keywords : Option String := none
  deriving Repr, DecidableEq

/-- Sparse attribute dictionary handed to `update_node`; the updatable
keys per its docstring are `name`, `url`, `icon`, `keywords`. -/
structure UpdAttrs where
  name : Option String := none
  url : Option String := none
  icon : Option String := none
  keywords : Option String := none
  deriving Repr, DecidableEq

/-- Python `if not attr_dict:` — the dictionary has no keys at all. -/
def UpdAttrs.isEmpty (a : UpdAttrs) : Bool :=
  a.name.isNone && a.url.isNone && a.icon.isNone && a.keywords.isNone

/-- Python `if attr_dict:` after `pop('name')` — some key other than
`name` is present. -/
def UpdAttrs.hasUrlKeys (a : UpdAttrs) : Bool :=
  a.url.isSome || a.icon.isSome || a.keywords.isSome

/-- Names of the rows whose `parent_guid` equals `g`
(`SELECT name FROM tree WHERE parent_guid = ?`), in table order. -/
def childNames (db : DB) (g : String) : List String :=
  (db.tree.filter (fun c => c.parent_guid == some g)).map (fun c => c.name)

/-- `ModelSQLite.get_children`: look the node up by name
(`NodeNotExists` when the name is absent); a folder returns
`(true, child names)`, a url returns `(false, [])`. -/
def get_children (db : DB) (node_name : String) : Except DBError (Bool × List String) :=
  match db.tree.find? (fun r => r.name == node_name) with
  | none => .error (.NodeNotExists node_name)
  | some r =>
    if r.node_type then .ok (true, childNames db r.guid)
    else .ok (false, [])

/-- `ModelSQLite.add_node`: resolve the sparse attributes in source
order (guid default, parent lookup, id_no default, name copy,
date_added default), insert the `tree` row, then the variant extension
row, and commit.  `fresh_guid` stands for `str(uuid.uuid4())` and
`now_ts` for the formatted `datetime.today()`. -/
def add_node (db : DB) (fresh_guid now_ts : String) (attr_dict : Attrs)
    (node_type : Bool) : Except DBError DB :=
  let guid : String :=
    match attr_dict.guid with
    | none => fresh_guid
    | some g => if g = "" then fresh_guid else g
  match attr_dict.parent_name with
  | none => .error (.KeyError "parent_name")
  | some pname =>
    match db.tree.find? (fun r => r.name == pname) with
    | none => .error .TypeErrorUnpackNone
    | some pr =>
      let parent_guid := pr.guid
      let id_no : Int := attr_dict.id_no.getD 0
      match attr_dict.name with
      | none => .error (.KeyError "name")
      | some name =>
        let date_added : String :=
          match attr_dict.date_added with
          | none => now_ts
          | some d => if d = "" then now_ts else d
        if db.tree.any (fun r => r.guid == guid) then
          .error (.ConstraintViolationGuid guid)
        else if db.tree.any (fun r => r.name == name) then
          .error (.ConstraintViolationName name)
        else
          let row : TreeRow :=
            { guid := guid, parent_guid := some parent_guid, id_no := id_no,
              name := name, date_added := date_added, node_type := node_type }
          if node_type then
            let date_modified : String :=
              match attr_dict.date_modified with
              | none => date_added
              | some d => if d = "" then date_added else d
            if db.folder.any (fun f => f.node_id == guid) then
              .error (.ConstraintViolationFolderPK guid)
            else
              .ok { tree := db.tree ++ [row],
                    folder := db.folder ++ [{ node_id := guid, date_modified := date_modified }],
                    url := db.url }
          else
            if db.url.any (fun u => u.node_id == guid) then
              .error (.ConstraintViolationUrlPK guid)
            else
              .ok { tree := db.tree ++ [row],
                    folder := db.folder,
                    url := db.url ++
                      [{ node_id := guid, url := attr_dict.url.getD "",
                         icon := attr_dict.icon.getD "",
                         keywords := attr_dict.keywords.getD "" }] }

/-- Step (a) of `update_node`: `UPDATE tree SET name = ? WHERE name = ?`
when the `name` key is present; returns the store and the name used by
all subsequent lookups of the call (`new_name`).  The UNIQUE constraint
on `tree.name` fires when a row is actually renamed to a distinct,
already-used name. -/
def renameStep (db : DB) (name : String) (a : UpdAttrs) : Except DBError (DB × String) :=
  match a.name with
  | none => .ok (db, name)
  | some nn =>
    if db.tree.any (fun r => r.name == name) && (nn != name)
        && db.tree.any (fun r => r.name == nn) then
      .error (.ConstraintViolationName nn)
    else
      .ok ({ db with
             tree := db.tree.map (fun r => if r.name == name then { r with name := nn } else r) },
           nn)

/-- Step (b) of `update_node`: when keys other than `name` remain, join
`tree` with `url` on the (possibly new) name, merge the stored row with
the incoming keys (incoming wins), and write the merged row back.  A
missing join row makes the Python `None | dict` raise `TypeError`. -/
def urlMergeStep (db : DB) (new_name : String) (a : UpdAttrs) : Except DBError DB :=
  if a.hasUrlKeys then
    match db.tree.find? (fun r => r.name == new_name) with
    | none => .error .TypeErrorMergeNone
    | some r =>
      match db.url.find? (fun u => u.node_id == r.guid) with
      | none => .error .TypeErrorMergeNone
      | some u =>
        let merged : UrlRow :=
          { node_id := u.node_id,
            url := a.url.getD u.url,
            icon := a.icon.getD u.icon,
            keywords := a.keywords.getD u.keywords }
        .ok { db with
              url := db.url.map (fun x => if x.node_id == u.node_id then merged else x) }
  else .ok db

/-- Step (c) of `update_node`: read the node's `parent_guid` under the
current name (`fetchone()[0]` raises `TypeError` on a miss) and stamp
`date_modified = now` on every `folder` row keyed by it; a `NULL`
parent matches no row. -/
def stampParentStep (db : DB) (new_name now_ts : String) : Except DBError DB :=
  match db.tree.find? (fun r => r.name == new_name) with
  | none => .error .TypeErrorNoneSubscript
  | some r =>
    match r.parent_guid with
    | none => .ok db
    | some pg =>
      .ok { db with
            folder := db.folder.map
              (fun f => if f.node_id == pg then { f with date_modified := now_ts } else f) }

/-- Steps (b) then (c) of `update_node`, run after the rename under the
name current from that point of the call on. -/
def afterRename (db1 : DB) (new_name now_ts : String) (attr_dict : UpdAttrs) :
    Except DBError DB :=
  match urlMergeStep db1 new_name attr_dict with
  | .error e => .error e
  | .ok db2 => stampParentStep db2 new_name now_ts

/-- `ModelSQLite.update_node`: no-op on an empty dictionary, else
rename, merge url attributes, and stamp the parent folder's
`date_modified`, committed as one transaction. -/
def update_node (db : DB) (now_ts : String) (name : String)
    (attr_dict : UpdAttrs) : Except DBError DB :=
  if attr_dict.isEmpty then .ok db
  else
    match renameStep db name attr_dict with
    | .error e => .error e
    | .ok (db1, new_name) => afterRename db1 new_name now_ts attr_dict

/-- `ModelSQLite.delete_node`: resolve via `get_children`
(`NodeNotExists` propagates), reject a folder that still has children
(`FolderNotEmpty`), else `DELETE FROM tree WHERE name = ?`; the matching
extension rows disappear through `ON DELETE CASCADE`, with no second
explicit `DELETE` statement. -/
def delete_node (db : DB) (name : String) : Except DBError DB :=
  match get_children db name with
  | .error e => .error e
  | .ok (res, children) =>
    if res && !children.isEmpty then .error (.FolderNotEmpty name)
    else
      let deleted_guids := (db.tree.filter (fun r => r.name == name)).map (fun r => r.guid)
      .ok { tree := db.tree.filter (fun r => r.name != name),
            folder := db.folder.filter (fun f => !(deleted_guids.contains f.node_id)),
            url := db.url.filter (fun u => !(deleted_guids.contains u.node_id)) }

/-- Flat node view produced by `get_node`: the joined main/extension
columns minus the duplicated `node_id` and the `node_type` discriminant,
with `children` present only for folders. -/
structure NodeView where
  guid : String
  parent_guid : Option String
  id_no : Int
  name : String
  date_added : String
  date_modified : Option String := none
  url : Option String := none
  icon : Option String := none
  keywords : Option String := none
  children : Option (List String) := none
  deriving Repr, DecidableEq

/-- `ModelSQLite.get_node`: resolve via `get_children` (`NodeNotExists`
propagates), then join the `tree` row with its variant extension row. -/
def get_node (db : DB) (name : String) : Except DBError NodeView :=
  match get_children db name with
  | .error e => .error e
  | .ok (res, children) =>
    match db.tree.find? (fun r => r.name == name) with
    | none => .error .TypeErrorNoneSubscript
    | some r =>
      if res then
        match db.folder.find? (fun f => f.node_id == r.guid) with
        | none => .error .TypeErrorNoneSubscript
        | some f =>
          .ok { guid := r.guid, parent_guid := r.parent_guid, id_no := r.id_no,
                name := r.name, date_added := r.date_added,
                date_modified := some f.date_modified, children := some children }
      else
        match db.url.find? (fun u => u.node_id == r.guid) with
        | none => .error .TypeErrorNoneSubscript
        | some u =>
          .ok { guid := r.guid, parent_guid := r.parent_guid, id_no := r.id_no,
                name := r.name, date_added := r.date_added,
                url := some u.url, icon := some u.icon, keywords := some u.keywords }

/-- `ModelSQLite.create_database`: fresh schema plus the single `roots`
row — a folder with no parent, default `id_no`, and
`date_added = date_modified = now_ts`.  `roots_guid` stands for the
generated `str(uuid.uuid4())`. -/
def create_database (roots_guid now_ts : String) : DB :=
  { tree := [{ guid := roots_guid, parent_guid := none, id_no := 0,
               name := "roots", date_added := now_ts, node_type := true }],
    folder := [{ node_id := roots_guid, date_modified := now_ts }],
    url := [] }

/-- Number of parentless (root) rows in the store. -/
def rootCount (db : DB) : Nat :=
  (db.tree.filter (fun r => r.parent_guid == none)).length

/-- Does every non-root row's `parent_guid` point at an existing row
that is a folder? -/
def parentIsFolder (db : DB) : Bool :=
  db.tree.all fun r =>
    match r.parent_guid with
    | none => true
    | some pg => db.tree.any fun p => p.guid == pg && p.node_type

/-- Does every non-root row's `parent_guid` point at an existing row
(of either variant)? -/
def parentResolves (db : DB) : Bool :=
  db.tree.all fun r =>
    match r.parent_guid with
    | none => true
    | some pg => db.tree.any fun p => p.guid == pg

deriving instance DecidableEq for Except

/-! ### General helper lemmas -/

/-- Success of `get_children` on a found row, by node type. -/
theorem get_children_of_find? (db : DB) (name : String) (r : TreeRow)
    (hr : db.tree.find? (fun x => x.name == name) = some r) :
    get_children db name =
      (if r.node_type then .ok (true, childNames db r.guid) else .ok (false, [])) := by
  unfold get_children
  rw [hr]

/-! ### C6 -/

/-- C6: for every name with no row in the tree, `get_children`,
`get_node` and `delete_node` each fail with `NodeNotExists` (and,
returning an error, leave the store unchanged). -/
theorem unknown_name_fails_NodeNotExists (db : DB) (n : String)
    (h : db.tree.find? (fun r => r.name == n) = none) :
    get_children db n = .error (.NodeNotExists n) ∧
    get_node db n = .error (.NodeNotExists n) ∧
    delete_node db n = .error (.NodeNotExists n) := by
  have hg : get_children db n = .error (.NodeNotExists n) := by
    unfold get_children
    rw [h]
  refine ⟨hg, ?_, ?_⟩
  · unfold get_node
    rw [hg]
  · unfold delete_node
    rw [hg]

/-- Witness for C6 on a fresh store and the name "ghost". -/
theorem unknown_name_fails_NodeNotExists_witness :
    ((create_database "g0" "t0").tree.find? (fun r => r.name == "ghost") = none) ∧
    (get_children (create_database "g0" "t0") "ghost" = .error (.NodeNotExists "ghost") ∧
     get_node (create_database "g0" "t0") "ghost" = .error (.NodeNotExists "ghost") ∧
     delete_node (create_database "g0" "t0") "ghost" = .error (.NodeNotExists "ghost")) :=
  ⟨by decide, unknown_name_fails_NodeNotExists (create_database "g0" "t0") "ghost" (by decide)⟩

/-! ### C7 -/

/-- Counterexample to C7: adding under the nonexistent parent "ghost"
fails with the untyped `TypeError` of unpacking `fetchone() = None`
(`add_node` line 109), not with the typed `NodeNotExists`. -/
theorem addNode_missing_parent_counterexample :
    add_node (create_database "g0" "t0") "g1" "t1"
      { parent_name := some "ghost", name := some "n" } true
      = .error .TypeErrorUnpackNone ∧
    errIsNodeNotExists
      (add_node (create_database "g0" "t0") "g1" "t1"
        { parent_name := some "ghost", name := some "n" } true) = false := by
  exact ⟨by decide, by decide⟩

/-- C7 amended: for every attribute mapping whose `parent_name` does not
resolve, `add_node` fails — leaving the store unchanged — but the
failure is the untyped `TypeError` raised by unpacking an empty lookup
result, not the `NodeNotExists` taxonomy error. -/
theorem addNode_missing_parent_TypeError (db : DB) (fresh_guid now_ts p : String)
    (a : Attrs) (nt : Bool)
    (hp : a.parent_name = some p)
    (hmiss : db.tree.find? (fun r => r.name == p) = none) :
    add_node db fresh_guid now_ts a nt = .error .TypeErrorUnpackNone := by
  unfold add_node
  simp only [hp, hmiss]

/-- Witness for the amended C7 on a fresh store. -/
theorem addNode_missing_parent_TypeError_witness :
    ({ parent_name := some "ghost", name := some "n" : Attrs }.parent_name = some "ghost") ∧
    ((create_database "g0" "t0").tree.find? (fun r => r.name == "ghost") = none) ∧
    add_node (create_database "g0" "t0") "g1" "t1"
      { parent_name := some "ghost", name := some "n" } false
      = .error .TypeErrorUnpackNone :=
  ⟨rfl, by decide,
   addNode_missing_parent_TypeError (create_database "g0" "t0") "g1" "t1" "ghost"
     { parent_name := some "ghost", name := some "n" } false rfl (by decide)⟩

/-! ### C1 -/

/-- C1: for every attribute mapping whose `name` is already used by a
row anywhere in the tree (with a present, resolvable `parent_name`, so
that the insert itself is reached), `add_node` fails with an
`IntegrityError`-style constraint violation — a duplicate primary key
or the UNIQUE-name constraint — and, returning an error, never
overwrites anything: the store is unchanged. -/
theorem addNode_duplicate_name_rejected (db : DB) (fresh_guid now_ts p n : String)
    (a : Attrs) (nt : Bool)
    (hp : a.parent_name = some p)
    (hpr : (db.tree.find? (fun r => r.name == p)).isSome)
    (hn : a.name = some n)
    (hdup : db.tree.any (fun r => r.name == n) = true) :
    ∃ e, add_node db fresh_guid now_ts a nt = .error e ∧
      e.isConstraintViolation = true := by
  obtain ⟨pr, hpr⟩ := Option.isSome_iff_exists.mp hpr
  unfold add_node
  simp only [hp, hpr, hn, hdup]
  split
  · exact ⟨_, rfl, rfl⟩
  · exact ⟨_, rfl, rfl⟩

/-- Witness for C1: re-inserting the name "roots" into a fresh store. -/
theorem addNode_duplicate_name_rejected_witness :
    (({ parent_name := some "roots", name := some "roots" : Attrs }.parent_name
       = some "roots") ∧
     ((create_database "g0" "t0").tree.find? (fun r => r.name == "roots")).isSome ∧
     ({ parent_name := some "roots", name := some "roots" : Attrs }.name = some "roots") ∧
     (create_database "g0" "t0").tree.any (fun r => r.name == "roots") = true) ∧
    (∃ e, add_node (create_database "g0" "t0") "g1" "t1"
        { parent_name := some "roots", name := some "roots" } false = .error e ∧
      e.isConstraintViolation = true) :=
  ⟨⟨rfl, by decide, rfl, by decide⟩,
   addNode_duplicate_name_rejected (create_database "g0" "t0") "g1" "t1" "roots" "roots"
     { parent_name := some "roots", name := some "roots" } false
     rfl (by decide) rfl (by decide)⟩

/-! ### C10 -/

/-- C10: for every attribute mapping carrying an explicit non-empty
`guid` already present in the tree (whatever its `name`), `add_node`
fails with the primary-key constraint violation on `tree.guid`; the
error return means no row reached any of the three tables. -/
theorem addNode_duplicate_guid_pk (db : DB) (fresh_guid now_ts p g : String)
    (a : Attrs) (nt : Bool)
    (hg : a.guid = some g) (hge : g ≠ "")
    (hp : a.parent_name = some p)
    (hpr : (db.tree.find? (fun r => r.name == p)).isSome)
    (hn : a.name.isSome)
    (hdup : db.tree.any (fun r => r.guid == g) = true) :
    add_node db fresh_guid now_ts a nt = .error (.ConstraintViolationGuid g) := by
  obtain ⟨pr, hpr⟩ := Option.isSome_iff_exists.mp hpr
  obtain ⟨n, hn⟩ := Option.isSome_iff_exists.mp hn
  unfold add_node
  simp only [hg, hp, hpr, hn, if_neg hge]
  rw [if_pos hdup]

/-- Witness for C10: reusing the root's guid under a fresh name. -/
theorem addNode_duplicate_guid_pk_witness :
    (({ guid := some "g0", parent_name := some "roots", name := some "fresh" : Attrs }.guid
       = some "g0") ∧
     ("g0" : String) ≠ "" ∧
     ((create_database "g0" "t0").tree.find? (fun r => r.name == "roots")).isSome ∧
     (create_database "g0" "t0").tree.any (fun r => r.guid == "g0") = true) ∧
    add_node (create_database "g0" "t0") "g1" "t1"
      { guid := some "g0", parent_name := some "roots", name := some "fresh" } true
      = .error (.ConstraintViolationGuid "g0") :=
  ⟨⟨rfl, by decide, by decide, by decide⟩,
   addNode_duplicate_guid_pk (create_database "g0" "t0") "g1" "t1" "roots" "g0"
     { guid := some "g0", parent_name := some "roots", name := some "fresh" } true
     rfl (by decide) rfl (by decide) rfl (by decide)⟩

/-! ### C8 -/

/-- Counterexample to C8: on a fresh store `delete_node "roots"` goes
through the ordinary deletion path and succeeds, leaving a store with
no root row at all; likewise `update_node` renames the root through the
ordinary rename path, after which the name "roots" no longer resolves.
So the root can be both deleted and renamed by the same paths as
normal nodes. -/
theorem root_deletable_renamable_counterexample :
    delete_node (create_database "g0" "t0") "roots" =
      .ok { tree := [], folder := [], url := [] } ∧
    rootCount { tree := [], folder := [], url := [] } = 0 ∧
    update_node (create_database "g0" "t0") "t1" "roots" { name := some "renamed" } =
      .ok { tree := [{ guid := "g0", parent_guid := none, id_no := 0, name := "renamed",
                       date_added := "t0", node_type := true }],
            folder := [{ node_id := "g0", date_modified := "t0" }], url := [] } ∧
    ({ tree := [{ guid := "g0", parent_guid := none, id_no := 0, name := "renamed",
                  date_added := "t0", node_type := true }],
       folder := [{ node_id := "g0", date_modified := "t0" }], url := [] } : DB).tree.find?
      (fun r => r.name == "roots") = none := by
  exact ⟨by decide, by decide, by decide, by decide⟩

/-- C8 amended: `create_database` makes exactly one node — a parentless
folder named "roots" whose `date_added` and `date_modified` are both the
creation timestamp — and `add_node` only ever inserts rows with a
present `parent_guid`; however, the root is *not* protected: the normal
`delete_node` path deletes it once it has no children, and the normal
`update_node` path renames it (its missing parent merely makes the
parent-stamping update match no row). -/
theorem root_shape_after_create (g t nn now_ts : String) :
    (create_database g t).tree =
      [{ guid := g, parent_guid := none, id_no := 0, name := "roots",
         date_added := t, node_type := true }] ∧
    (create_database g t).folder = [{ node_id := g, date_modified := t }] ∧
    rootCount (create_database g t) = 1 ∧
    delete_node (create_database g t) "roots" =
      .ok { tree := [], folder := [], url := [] } ∧
    update_node (create_database g t) now_ts "roots" { name := some nn } =
      .ok { tree := [{ guid := g, parent_guid := none, id_no := 0, name := nn,
                       date_added := t, node_type := true }],
            folder := [{ node_id := g, date_modified := t }], url := [] } := by
  refine ⟨rfl, rfl, rfl, ?_, ?_⟩
  · unfold delete_node get_children childNames create_database
    simp [List.find?, List.filter, List.contains]
  · unfold update_node renameStep afterRename urlMergeStep stampParentStep
    by_cases h : nn = "roots"
    · simp [UpdAttrs.isEmpty, UpdAttrs.hasUrlKeys, create_database, List.find?, List.any, h]
    · have h2 : ¬("roots" = nn) := fun he => h he.symm
      simp [UpdAttrs.isEmpty, UpdAttrs.hasUrlKeys, create_database, List.find?, List.any, h, h2]

/-! ### C9 -/

/-- Counterexample to C9: starting from a fresh store, add a url "u"
under "roots", then add a node "x" whose `parent_name` is "u" — the
insertion succeeds although the parent is a Url, so the
parent-is-a-Folder invariant fails; deleting "u" afterwards also
succeeds (a url passes the children check vacuously) and leaves "x"
with a dangling `parent_guid`. -/
theorem url_parent_counterexample :
    add_node (create_database "g0" "t0") "g1" "t1"
      { parent_name := some "roots", name := some "u" } false =
      .ok { tree := [{ guid := "g0", parent_guid := none, id_no := 0, name := "roots",
                       date_added := "t0", node_type := true },
                     { guid := "g1", parent_guid := some "g0", id_no := 0, name := "u",
                       date_added := "t1", node_type := false }],
            folder := [{ node_id := "g0", date_modified := "t0" }],
            url := [{ node_id := "g1", url := "", icon := "", keywords := "" }] } ∧
    add_node { tree := [{ guid := "g0", parent_guid := none, id_no := 0, name := "roots",
                          date_added := "t0", node_type := true },
                        { guid := "g1", parent_guid := some "g0", id_no := 0, name := "u",
                          date_added := "t1", node_type := false }],
               folder := [{ node_id := "g0", date_modified := "t0" }],
               url := [{ node_id := "g1", url := "", icon := "", keywords := "" }] }
      "g2" "t2" { parent_name := some "u", name := some "x" } false =
      .ok { tree := [{ guid := "g0", parent_guid := none, id_no := 0, name := "roots",
                       date_added := "t0", node_type := true },
                     { guid := "g1", parent_guid := some "g0", id_no := 0, name := "u",
                       date_added := "t1", node_type := false },
                     { guid := "g2", parent_guid := some "g1", id_no := 0, name := "x",
                       date_added := "t2", node_type := false }],
            folder := [{ node_id := "g0", date_modified := "t0" }],
            url := [{ node_id := "g1", url := "", icon := "", keywords := "" },
                    { node_id := "g2", url := "", icon := "", keywords := "" }] } ∧
    parentIsFolder
      { tree := [{ guid := "g0", parent_guid := none, id_no := 0, name := "roots",
                   date_added := "t0", node_type := true },
                 { guid := "g1", parent_guid := some "g0", id_no := 0, name := "u",
                   date_added := "t1", node_type := false },
                 { guid := "g2", parent_guid := some "g1", id_no := 0, name := "x",
                   date_added := "t2", node_type := false }],
        folder := [{ node_id := "g0", date_modified := "t0" }],
        url := [{ node_id := "g1", url := "", icon := "", keywords := "" },
                { node_id := "g2", url := "", icon := "", keywords := "" }] } = false ∧
    delete_node
      { tree := [{ guid := "g0", parent_guid := none, id_no := 0, name := "roots",
                   date_added := "t0", node_type := true },
                 { guid := "g1", parent_guid := some "g0", id_no := 0, name := "u",
                   date_added := "t1", node_type := false },
                 { guid := "g2", parent_guid := some "g1", id_no := 0, name := "x",
                   date_added := "t2", node_type := false }],
        folder := [{ node_id := "g0", date_modified := "t0" }],
        url := [{ node_id := "g1", url := "", icon := "", keywords := "" },
                { node_id := "g2", url := "", icon := "", keywords := "" }] } "u" =
      .ok { tree := [{ guid := "g0", parent_guid := none, id_no := 0, name := "roots",
                       date_added := "t0", node_type := true },
                     { guid := "g2", parent_guid := some "g1", id_no := 0, name := "x",
                       date_added := "t2", node_type := false }],
            folder := [{ node_id := "g0", date_modified := "t0" }],
            url := [{ node_id := "g2", url := "", icon := "", keywords := "" }] } ∧
    parentResolves
      { tree := [{ guid := "g0", parent_guid := none, id_no := 0, name := "roots",
                   date_added := "t0", node_type := true },
                 { guid := "g2", parent_guid := some "g1", id_no := 0, name := "x",
                   date_added := "t2", node_type := false }],
        folder := [{ node_id := "g0", date_modified := "t0" }],
        url := [{ node_id := "g2", url := "", icon := "", keywords := "" }] } = false := by
  exact ⟨by decide, by decide, by decide, by decide, by decide⟩

/-- C9 amended: at insertion time, every successful `add_node` links
the new row to an existing row — `parent_guid` is the guid of the row
`parent_name` resolved to — but the code never requires that row to be
a Folder, and the link is not maintained afterwards (a Url parent can
be a parent and can later be deleted out from under its children). -/
theorem addNode_parent_existing_node (db : DB) (fresh_guid now_ts p : String)
    (a : Attrs) (nt : Bool) (pr : TreeRow) (db' : DB)
    (hp : a.parent_name = some p)
    (hpr : db.tree.find? (fun r => r.name == p) = some pr)
    (h : add_node db fresh_guid now_ts a nt = .ok db') :
    ∃ row : TreeRow, db'.tree = db.tree ++ [row] ∧
      row.parent_guid = some pr.guid ∧ pr ∈ db.tree := by
  have hmem : pr ∈ db.tree := List.mem_of_find?_eq_some hpr
  unfold add_node at h
  simp only [hp, hpr] at h
  repeat' split at h
  all_goals first
    | (injection h with h
       subst h
       exact ⟨_, rfl, rfl, hmem⟩)
    | injection h

/-- Witness for the amended C9: adding the url "u" under "roots". -/
theorem addNode_parent_existing_node_witness :
    (({ parent_name := some "roots", name := some "u" : Attrs }.parent_name = some "roots") ∧
     ((create_database "g0" "t0").tree.find? (fun r => r.name == "roots") =
       some { guid := "g0", parent_guid := none, id_no := 0, name := "roots",
              date_added := "t0", node_type := true }) ∧
     add_node (create_database "g0" "t0") "g1" "t1"
       { parent_name := some "roots", name := some "u" } false =
       .ok { tree := [{ guid := "g0", parent_guid := none, id_no := 0, name := "roots",
                        date_added := "t0", node_type := true },
                      { guid := "g1", parent_guid := some "g0", id_no := 0, name := "u",
                        date_added := "t1", node_type := false }],
             folder := [{ node_id := "g0", date_modified := "t0" }],
             url := [{ node_id := "g1", url := "", icon := "", keywords := "" }] }) ∧
    (∃ row : TreeRow,
      ({ tree := [{ guid := "g0", parent_guid := none, id_no := 0, name := "roots",
                    date_added := "t0", node_type := true },
                  { guid := "g1", parent_guid := some "g0", id_no := 0, name := "u",
                    date_added := "t1", node_type := false }],
         folder := [{ node_id := "g0", date_modified := "t0" }],
         url := [{ node_id := "g1", url := "", icon := "", keywords := "" }] } : DB).tree =
        (create_database "g0" "t0").tree ++ [row] ∧
      row.parent_guid = some ({ guid := "g0", parent_guid := none, id_no := 0,
                                name := "roots", date_added := "t0",
                                node_type := true : TreeRow }).guid ∧
      ({ guid := "g0", parent_guid := none, id_no := 0, name := "roots",
         date_added := "t0", node_type := true : TreeRow }) ∈ (create_database "g0" "t0").tree) :=
  ⟨⟨rfl, by decide, by decide⟩,
   addNode_parent_existing_node (create_database "g0" "t0") "g1" "t1" "roots"
     { parent_name := some "roots", name := some "u" } false
     { guid := "g0", parent_guid := none, id_no := 0, name := "roots",
       date_added := "t0", node_type := true }
     { tree := [{ guid := "g0", parent_guid := none, id_no := 0, name := "roots",
                  date_added := "t0", node_type := true },
                { guid := "g1", parent_guid := some "g0", id_no := 0, name := "u",
                  date_added := "t1", node_type := false }],
       folder := [{ node_id := "g0", date_modified := "t0" }],
       url := [{ node_id := "g1", url := "", icon := "", keywords := "" }] }
     rfl (by decide) (by decide)⟩

/-! ### C2 -/

/-- C2: for an existing node (the row `name` resolves to): a folder
with at least one child makes `delete_node` fail with `FolderNotEmpty`
— an error return, so no mutation; otherwise (url, or folder with no
children) `delete_node` succeeds, the main-table rows bearing the name
are gone, both extension tables lose exactly the rows keyed by the
deleted guids (the cascade — the embedding contains no second explicit
delete), every other row survives, and the deleted node's guid is
among the cascaded keys. -/
theorem deleteNode_guard_and_cascade (db : DB) (name : String) (r : TreeRow)
    (hr : db.tree.find? (fun x => x.name == name) = some r) :
    (r.node_type = true ∧ childNames db r.guid ≠ [] →
        delete_node db name = .error (.FolderNotEmpty name)) ∧
    (r.node_type = false ∨ childNames db r.guid = [] →
        ∃ db', delete_node db name = .ok db' ∧
          (∀ x : TreeRow, x ∈ db'.tree ↔ x ∈ db.tree ∧ ¬x.name = name) ∧
          (∀ f : FolderRow, f ∈ db'.folder ↔ f ∈ db.folder ∧
            ¬f.node_id ∈ (db.tree.filter (fun x => x.name == name)).map (fun x => x.guid)) ∧
          (∀ u : UrlRow, u ∈ db'.url ↔ u ∈ db.url ∧
            ¬u.node_id ∈ (db.tree.filter (fun x => x.name == name)).map (fun x => x.guid)) ∧
          r.guid ∈ (db.tree.filter (fun x => x.name == name)).map (fun x => x.guid)) := by
  have hgc := get_children_of_find? db name r hr
  have hrname := List.find?_some hr
  have hrg : r.guid ∈ (db.tree.filter (fun x => x.name == name)).map (fun x => x.guid) :=
    List.mem_map_of_mem _ (List.mem_filter.mpr ⟨List.mem_of_find?_eq_some hr, hrname⟩)
  constructor
  · rintro ⟨ht, hne⟩
    have hie : (childNames db r.guid).isEmpty = false := by
      cases hcl : childNames db r.guid with
      | nil => exact absurd hcl hne
      | cons a l => rfl
    unfold delete_node
    rw [hgc]
    simp [ht, hie]
  · intro hor
    have hstep : delete_node db name =
        .ok { tree := db.tree.filter (fun x => x.name != name),
              folder := db.folder.filter
                (fun f => !(((db.tree.filter (fun x => x.name == name)).map
                    (fun x => x.guid)).contains f.node_id)),
              url := db.url.filter
                (fun u => !(((db.tree.filter (fun x => x.name == name)).map
                    (fun x => x.guid)).contains u.node_id)) } := by
      unfold delete_node
      rw [hgc]
      cases hnt : r.node_type with
      | false => simp
      | true =>
        have hch : childNames db r.guid = [] := by
          rcases hor with ht | hch
          · rw [hnt] at ht
            cases ht
          · exact hch
        simp [hch]
    refine ⟨_, hstep, ?_, ?_, ?_, hrg⟩
    · intro x
      simp [List.mem_filter]
    · intro f
      simp [List.mem_filter]
    · intro u
      simp [List.mem_filter]

/-- Witness for C2 on a store whose root folder has one url child
"u": deleting "roots" is rejected with `FolderNotEmpty`. -/
theorem deleteNode_guard_and_cascade_witness :
    ({ tree := [{ guid := "g0", parent_guid := none, id_no := 0, name := "roots",
                  date_added := "t0", node_type := true },
                { guid := "g1", parent_guid := some "g0", id_no := 0, name := "u",
                  date_added := "t1", node_type := false }],
       folder := [{ node_id := "g0", date_modified := "t0" }],
       url := [{ node_id := "g1", url := "", icon := "", keywords := "" }] } : DB).tree.find?
        (fun x => x.name == "roots") =
      some { guid := "g0", parent_guid := none, id_no := 0, name := "roots",
             date_added := "t0", node_type := true } ∧
    (({ guid := "g0", parent_guid := none, id_no := 0, name := "roots",
        date_added := "t0", node_type := true } : TreeRow).node_type = true ∧
      childNames { tree := [{ guid := "g0", parent_guid := none, id_no := 0, name := "roots",
                              date_added := "t0", node_type := true },
                            { guid := "g1", parent_guid := some "g0", id_no := 0, name := "u",
                              date_added := "t1", node_type := false }],
                   folder := [{ node_id := "g0", date_modified := "t0" }],
                   url := [{ node_id := "g1", url := "", icon := "", keywords := "" }] }
        "g0" ≠ []) ∧
    delete_node { tree := [{ guid := "g0", parent_guid := none, id_no := 0, name := "roots",
                             date_added := "t0", node_type := true },
                           { guid := "g1", parent_guid := some "g0", id_no := 0, name := "u",
                             date_added := "t1", node_type := false }],
                  folder := [{ node_id := "g0", date_modified := "t0" }],
                  url := [{ node_id := "g1", url := "", icon := "", keywords := "" }] }
      "roots" = .error (.FolderNotEmpty "roots") :=
  ⟨by decide, ⟨rfl, by decide⟩,
   (deleteNode_guard_and_cascade
     { tree := [{ guid := "g0", parent_guid := none, id_no := 0, name := "roots",
                  date_added := "t0", node_type := true },
                { guid := "g1", parent_guid := some "g0", id_no := 0, name := "u",
                  date_added := "t1", node_type := false }],
       folder := [{ node_id := "g0", date_modified := "t0" }],
       url := [{ node_id := "g1", url := "", icon := "", keywords := "" }] }
     "roots"
     { guid := "g0", parent_guid := none, id_no := 0, name := "roots",
       date_added := "t0", node_type := true }
     (by decide)).1 ⟨rfl, by decide⟩⟩

/-! ### Helper lemmas for `update_node` -/

/-- A `hasUrlKeys` dictionary is not empty. -/
theorem hasUrlKeys_not_isEmpty (a : UpdAttrs) (h : a.hasUrlKeys = true) :
    a.isEmpty = false := by
  cases hu : a.url <;> cases hi : a.icon <;> cases hk : a.keywords <;>
    simp_all [UpdAttrs.hasUrlKeys, UpdAttrs.isEmpty]

/-- `urlMergeStep` never touches the `tree` or `folder` tables. -/
theorem urlMergeStep_tree_folder (db db' : DB) (nn : String) (a : UpdAttrs)
    (h : urlMergeStep db nn a = .ok db') :
    db'.tree = db.tree ∧ db'.folder = db.folder := by
  unfold urlMergeStep at h
  repeat' split at h
  all_goals first
    | (injection h with h
       subst h
       exact ⟨rfl, rfl⟩)
    | injection h

/-- `stampParentStep` never touches the `tree` or `url` tables. -/
theorem stampParentStep_tree_url (db db' : DB) (nn now_ts : String)
    (h : stampParentStep db nn now_ts = .ok db') :
    db'.tree = db.tree ∧ db'.url = db.url := by
  unfold stampParentStep at h
  repeat' split at h
  all_goals first
    | (injection h with h
       subst h
       exact ⟨rfl, rfl⟩)
    | injection h

/-- Steps (b) and (c) of `update_node` never touch the `tree` table. -/
theorem afterRename_tree (db1 db' : DB) (nn now_ts : String) (a : UpdAttrs)
    (h : afterRename db1 nn now_ts a = .ok db') : db'.tree = db1.tree := by
  unfold afterRename at h
  cases hm : urlMergeStep db1 nn a with
  | error e =>
    rw [hm] at h
    injection h
  | ok db2 =>
    rw [hm] at h
    obtain ⟨h2, -⟩ := urlMergeStep_tree_folder _ _ _ _ hm
    obtain ⟨h3, -⟩ := stampParentStep_tree_url _ _ _ _ h
    rw [h3, h2]

/-- After the rename `UPDATE`, no row answers to the old name. -/
theorem find?_rename_old (l : List TreeRow) (old nn : String) (hne : nn ≠ old) :
    (l.map (fun r => if r.name == old then { r with name := nn } else r)).find?
      (fun x => x.name == old) = none := by
  induction l with
  | nil => rfl
  | cons a l ih =>
    rw [List.map_cons]
    have hh : ((if a.name == old then { a with name := nn } else a).name == old) = false := by
      by_cases hao : a.name = old
      · simp [hao, hne]
      · simp [hao]
    simp only [List.find?]
    rw [hh]
    exact ih

/-- After the rename `UPDATE`, the new name resolves to the renamed
row, provided the new name was unused before. -/
theorem find?_rename_new (l : List TreeRow) (old nn : String) (r : TreeRow)
    (hr : l.find? (fun x => x.name == old) = some r)
    (hfresh : l.all (fun x => x.name != nn) = true) :
    (l.map (fun x => if x.name == old then { x with name := nn } else x)).find?
      (fun x => x.name == nn) = some { r with name := nn } := by
  induction l with
  | nil => simp at hr
  | cons a l ih =>
    rw [List.all_cons, Bool.and_eq_true] at hfresh
    obtain ⟨ha, hl⟩ := hfresh
    have hanew : ¬a.name = nn := by simpa using ha
    rw [List.map_cons]
    by_cases hao : a.name = old
    · have hra : a = r := by
        rw [List.find?_cons_of_pos] at hr
        · exact Option.some.inj hr
        · simp [hao]
      subst hra
      have hh : ((if a.name == old then { a with name := nn } else a).name == nn) = true := by
        simp [hao]
      simp only [List.find?]
      rw [hh]
      simp [hao]
    · have hrt : l.find? (fun x => x.name == old) = some r := by
        rw [List.find?_cons_of_neg] at hr
        · exact hr
        · simp [hao]
      have hh : ((if a.name == old then { a with name := nn } else a).name == nn) = false := by
        simp [hao, hanew]
      simp only [List.find?]
      rw [hh]
      exact ih hrt hl

/-- No row matches a name that every row differs from. -/
theorem any_name_eq_false_of_all_bne (l : List TreeRow) (nn : String)
    (hfresh : l.all (fun x => x.name != nn) = true) :
    l.any (fun x => x.name == nn) = false := by
  induction l with
  | nil => rfl
  | cons a l ih =>
    rw [List.all_cons, Bool.and_eq_true] at hfresh
    obtain ⟨ha, hl⟩ := hfresh
    have hanew : ¬a.name = nn := by simpa using ha
    rw [List.any_cons]
    simp [hanew, ih hl]

/-! ### C5 -/

/-- C5: when `update_node` is given a fresh new name for an existing
node and succeeds, the rename went through the main table: afterwards a
lookup by the old name resolves to nothing and a lookup by the new name
resolves to the very same row with only its `name` field changed.
(Within the call itself, steps (b) and (c) already look up by the new
name: `urlMergeStep`/`stampParentStep` receive `new_name`.) -/
theorem updateNode_rename_propagates (db db' : DB) (now_ts name nn : String)
    (a : UpdAttrs) (r : TreeRow)
    (ha : a.name = some nn)
    (hr : db.tree.find? (fun x => x.name == name) = some r)
    (hne : nn ≠ name)
    (hfresh : db.tree.all (fun x => x.name != nn) = true)
    (h : update_node db now_ts name a = .ok db') :
    db'.tree.find? (fun x => x.name == name) = none ∧
    db'.tree.find? (fun x => x.name == nn) = some { r with name := nn } := by
  have hnemp : ¬a.isEmpty = true := by
    simp [UpdAttrs.isEmpty, ha]
  unfold update_node at h
  rw [if_neg hnemp] at h
  unfold renameStep at h
  have hcnd : (db.tree.any (fun x => x.name == name) && (nn != name)
      && db.tree.any (fun x => x.name == nn)) = false := by
    simp [any_name_eq_false_of_all_bne db.tree nn hfresh]
  simp only [ha, hcnd, Bool.false_eq_true, if_false] at h
  have htree := afterRename_tree _ _ _ _ _ h
  constructor
  · rw [htree]
    exact find?_rename_old db.tree name nn hne
  · rw [htree]
    exact find?_rename_new db.tree name nn r hr hfresh

/-- Witness for C5: renaming the url "u" to "v" in a two-node store. -/
theorem updateNode_rename_propagates_witness :
    (({ name := some "v" : UpdAttrs }.name = some "v") ∧
     ({ tree := [{ guid := "g0", parent_guid := none, id_no := 0, name := "roots",
                   date_added := "t0", node_type := true },
                 { guid := "g1", parent_guid := some "g0", id_no := 0, name := "u",
                   date_added := "t1", node_type := false }],
        folder := [{ node_id := "g0", date_modified := "t0" }],
        url := [{ node_id := "g1", url := "", icon := "", keywords := "" }] } : DB).tree.find?
         (fun x => x.name == "u") =
       some { guid := "g1", parent_guid := some "g0", id_no := 0, name := "u",
              date_added := "t1", node_type := false } ∧
     ("v" : String) ≠ "u" ∧
     update_node { tree := [{ guid := "g0", parent_guid := none, id_no := 0, name := "roots",
                              date_added := "t0", node_type := true },
                            { guid := "g1", parent_guid := some "g0", id_no := 0, name := "u",
                              date_added := "t1", node_type := false }],
                   folder := [{ node_id := "g0", date_modified := "t0" }],
                   url := [{ node_id := "g1", url := "", icon := "", keywords := "" }] }
       "t2" "u" { name := some "v" } =
       .ok { tree := [{ guid := "g0", parent_guid := none, id_no := 0, name := "roots",
                        date_added := "t0", node_type := true },
                      { guid := "g1", parent_guid := some "g0", id_no := 0, name := "v",
                        date_added := "t1", node_type := false }],
             folder := [{ node_id := "g0", date_modified := "t2" }],
             url := [{ node_id := "g1", url := "", icon := "", keywords := "" }] }) ∧
    (({ tree := [{ guid := "g0", parent_guid := none, id_no := 0, name := "roots",
                   date_added := "t0", node_type := true },
                 { guid := "g1", parent_guid := some "g0", id_no := 0, name := "v",
                   date_added := "t1", node_type := false }],
        folder := [{ node_id := "g0", date_modified := "t2" }],
        url := [{ node_id := "g1", url := "", icon := "", keywords := "" }] } : DB).tree.find?
        (fun x => x.name == "u") = none ∧
     ({ tree := [{ guid := "g0", parent_guid := none, id_no := 0, name := "roots",
                   date_added := "t0", node_type := true },
                 { guid := "g1", parent_guid := some "g0", id_no := 0, name := "v",
                   date_added := "t1", node_type := false }],
        folder := [{ node_id := "g0", date_modified := "t2" }],
        url := [{ node_id := "g1", url := "", icon := "", keywords := "" }] } : DB).tree.find?
        (fun x => x.name == "v") =
       some { guid := "g1", parent_guid := some "g0", id_no := 0, name := "v",
              date_added := "t1", node_type := false }) :=
  ⟨⟨rfl, by decide, by decide, by decide⟩,
   updateNode_rename_propagates
     { tree := [{ guid := "g0", parent_guid := none, id_no := 0, name := "roots",
                  date_added := "t0", node_type := true },
                { guid := "g1", parent_guid := some "g0", id_no := 0, name := "u",
                  date_added := "t1", node_type := false }],
       folder := [{ node_id := "g0", date_modified := "t0" }],
       url := [{ node_id := "g1", url := "", icon := "", keywords := "" }] }
     { tree := [{ guid := "g0", parent_guid := none, id_no := 0, name := "roots",
                  date_added := "t0", node_type := true },
                { guid := "g1", parent_guid := some "g0", id_no := 0, name := "v",
                  date_added := "t1", node_type := false }],
       folder := [{ node_id := "g0", date_modified := "t2" }],
       url := [{ node_id := "g1", url := "", icon := "", keywords := "" }] }
     "t2" "u" "v" { name := some "v" }
     { guid := "g1", parent_guid := some "g0", id_no := 0, name := "u",
       date_added := "t1", node_type := false }
     rfl (by decide) (by decide) (by decide) (by decide)⟩

/-- After the merge `UPDATE`, looking the key up yields the merged
row. -/
theorem find?_map_replace (l : List UrlRow) (k : String) (u m : UrlRow)
    (hu : l.find? (fun x => x.node_id == k) = some u)
    (hm : m.node_id = k) :
    (l.map (fun x => if x.node_id == u.node_id then m else x)).find?
      (fun x => x.node_id == k) = some m := by
  have huk : u.node_id = k := by simpa using List.find?_some hu
  induction l with
  | nil => simp at hu
  | cons a l ih =>
    rw [List.map_cons]
    by_cases hak : a.node_id = k
    · have hh : ((if a.node_id == u.node_id then m else a).node_id == k) = true := by
        simp [hak, huk, hm]
      simp only [List.find?]
      rw [hh]
      simp [hak, huk]
    · have hrt : l.find? (fun x => x.node_id == k) = some u := by
        rw [List.find?_cons_of_neg] at hu
        · exact hu
        · simp [hak]
      have hh : ((if a.node_id == u.node_id then m else a).node_id == k) = false := by
        simp [huk, hak]
      simp only [List.find?]
      rw [hh]
      exact ih hrt

/-- Url rows with another key survive the merge `UPDATE` unchanged. -/
theorem mem_map_replace_of_ne (l : List UrlRow) (k : String) (m x : UrlRow)
    (hx : x ∈ l) (hne : ¬x.node_id = k) :
    x ∈ l.map (fun y => if y.node_id == k then m else y) := by
  have h := List.mem_map_of_mem (fun y : UrlRow => if y.node_id == k then m else y) hx
  simpa [hne] using h

/-- Folder rows with the stamped key get the new `date_modified`. -/
theorem mem_map_stamp_of_eq (l : List FolderRow) (pg now_ts : String) (f : FolderRow)
    (hf : f ∈ l) (he : f.node_id = pg) :
    { f with date_modified := now_ts } ∈
      l.map (fun y => if y.node_id == pg then { y with date_modified := now_ts } else y) := by
  have h := List.mem_map_of_mem
    (fun y : FolderRow => if y.node_id == pg then { y with date_modified := now_ts } else y) hf
  simpa [he] using h

/-- Folder rows with another key survive the stamp `UPDATE` unchanged. -/
theorem mem_map_stamp_of_ne (l : List FolderRow) (pg now_ts : String) (f : FolderRow)
    (hf : f ∈ l) (hne : ¬f.node_id = pg) :
    f ∈ l.map (fun y => if y.node_id == pg then { y with date_modified := now_ts } else y) := by
  have h := List.mem_map_of_mem
    (fun y : FolderRow => if y.node_id == pg then { y with date_modified := now_ts } else y) hf
  simpa [hne] using h

/-! ### C4 -/

/-- C4: on an existing url node (its `tree` row, its `url` extension
row, and its parent all given): an empty attribute dictionary makes
`update_node` return the store untouched — including the parent's
`date_modified`; a dictionary with any of url/icon/keywords (and no
rename) succeeds, leaves the whole `tree` table — hence the node's own
`date_added` — unchanged, replaces the node's extension row by the
key-by-key merge in which incoming values win and absent keys keep
their stored values, keeps every other url row, stamps `now_ts` into
`date_modified` of every folder row keyed by the parent guid, and keeps
every other folder row. -/
theorem updateNode_url_merge_isolation (db : DB) (now_ts name : String) (a : UpdAttrs)
    (r : TreeRow) (u : UrlRow) (pg : String)
    (hnoname : a.name = none)
    (hr : db.tree.find? (fun x => x.name == name) = some r)
    (_hty : r.node_type = false)
    (hu : db.url.find? (fun x => x.node_id == r.guid) = some u)
    (hpg : r.parent_guid = some pg) :
    (a.isEmpty = true → update_node db now_ts name a = .ok db) ∧
    (a.hasUrlKeys = true →
      ∃ db', update_node db now_ts name a = .ok db' ∧
        db'.tree = db.tree ∧
        db'.url.find? (fun x => x.node_id == r.guid) =
          some { node_id := u.node_id, url := a.url.getD u.url,
                 icon := a.icon.getD u.icon, keywords := a.keywords.getD u.keywords } ∧
        (∀ x ∈ db.url, ¬x.node_id = u.node_id → x ∈ db'.url) ∧
        (∀ f ∈ db.folder, f.node_id = pg →
          { f with date_modified := now_ts } ∈ db'.folder) ∧
        (∀ f ∈ db.folder, ¬f.node_id = pg → f ∈ db'.folder)) := by
  have huk : u.node_id = r.guid := by simpa using List.find?_some hu
  constructor
  · intro he
    unfold update_node
    rw [if_pos he]
  · intro hk
    have hnemp : ¬a.isEmpty = true := by
      simp [hasUrlKeys_not_isEmpty a hk]
    have hrs : renameStep db name a = .ok (db, name) := by
      unfold renameStep
      rw [hnoname]
    have hms : urlMergeStep db name a =
        .ok { db with url := db.url.map (fun x => if x.node_id == u.node_id then
                { node_id := u.node_id, url := a.url.getD u.url, icon := a.icon.getD u.icon,
                  keywords := a.keywords.getD u.keywords } else x) } := by
      unfold urlMergeStep
      rw [if_pos hk]
      simp only [hr, hu]
    have hss : stampParentStep
        { db with url := db.url.map (fun x => if x.node_id == u.node_id then
            { node_id := u.node_id, url := a.url.getD u.url, icon := a.icon.getD u.icon,
              keywords := a.keywords.getD u.keywords } else x) } name now_ts =
        .ok { tree := db.tree,
              folder := db.folder.map
                (fun y => if y.node_id == pg then { y with date_modified := now_ts } else y),
              url := db.url.map (fun x => if x.node_id == u.node_id then
                { node_id := u.node_id, url := a.url.getD u.url, icon := a.icon.getD u.icon,
                  keywords := a.keywords.getD u.keywords } else x) } := by
      unfold stampParentStep
      simp only [hr, hpg]
    have hfin : update_node db now_ts name a =
        .ok { tree := db.tree,
              folder := db.folder.map
                (fun y => if y.node_id == pg then { y with date_modified := now_ts } else y),
              url := db.url.map (fun x => if x.node_id == u.node_id then
                { node_id := u.node_id, url := a.url.getD u.url, icon := a.icon.getD u.icon,
                  keywords := a.keywords.getD u.keywords } else x) } := by
      unfold update_node afterRename
      rw [if_neg hnemp]
      simp only [hrs, hms, hss]
    refine ⟨_, hfin, rfl, ?_, ?_, ?_, ?_⟩
    · exact find?_map_replace db.url r.guid u _ hu huk
    · intro x hx hxne
      exact mem_map_replace_of_ne db.url u.node_id _ x hx hxne
    · intro f hf he
      exact mem_map_stamp_of_eq db.folder pg now_ts f hf he
    · intro f hf hne
      exact mem_map_stamp_of_ne db.folder pg now_ts f hf hne

/-- Witness for C4: updating only `icon` of the url "u" keeps its
stored `url`/`keywords` and stamps the parent folder. -/
theorem updateNode_url_merge_isolation_witness :
    (({ icon := some "x" : UpdAttrs }.name = none) ∧
     ({ tree := [{ guid := "g0", parent_guid := none, id_no := 0, name := "roots",
                   date_added := "t0", node_type := true },
                 { guid := "g1", parent_guid := some "g0", id_no := 0, name := "u",
                   date_added := "t1", node_type := false }],
        folder := [{ node_id := "g0", date_modified := "t0" }],
        url := [{ node_id := "g1", url := "U", icon := "I", keywords := "K" }] } : DB).tree.find?
         (fun x => x.name == "u") =
       some { guid := "g1", parent_guid := some "g0", id_no := 0, name := "u",
              date_added := "t1", node_type := false } ∧
     ({ tree := [{ guid := "g0", parent_guid := none, id_no := 0, name := "roots",
                   date_added := "t0", node_type := true },
                 { guid := "g1", parent_guid := some "g0", id_no := 0, name := "u",
                   date_added := "t1", node_type := false }],
        folder := [{ node_id := "g0", date_modified := "t0" }],
        url := [{ node_id := "g1", url := "U", icon := "I", keywords := "K" }] } : DB).url.find?
         (fun x => x.node_id == "g1") =
       some { node_id := "g1", url := "U", icon := "I", keywords := "K" } ∧
     ({ icon := some "x" : UpdAttrs }.hasUrlKeys = true)) ∧
    (∃ db', update_node
        { tree := [{ guid := "g0", parent_guid := none, id_no := 0, name := "roots",
                     date_added := "t0", node_type := true },
                   { guid := "g1", parent_guid := some "g0", id_no := 0, name := "u",
                     date_added := "t1", node_type := false }],
          folder := [{ node_id := "g0", date_modified := "t0" }],
          url := [{ node_id := "g1", url := "U", icon := "I", keywords := "K" }] }
        "t2" "u" { icon := some "x" } = .ok db' ∧
      db'.tree = ({ tree := [{ guid := "g0", parent_guid := none, id_no := 0, name := "roots",
                               date_added := "t0", node_type := true },
                             { guid := "g1", parent_guid := some "g0", id_no := 0, name := "u",
                               date_added := "t1", node_type := false }],
                    folder := [{ node_id := "g0", date_modified := "t0" }],
                    url := [{ node_id := "g1", url := "U", icon := "I",
                              keywords := "K" }] } : DB).tree ∧
      db'.url.find? (fun x => x.node_id == "g1") =
        some { node_id := "g1", url := "U", icon := "x", keywords := "K" }) :=
  have hmain := (updateNode_url_merge_isolation
    { tree := [{ guid := "g0", parent_guid := none, id_no := 0, name := "roots",
                 date_added := "t0", node_type := true },
               { guid := "g1", parent_guid := some "g0", id_no := 0, name := "u",
                 date_added := "t1", node_type := false }],
      folder := [{ node_id := "g0", date_modified := "t0" }],
      url := [{ node_id := "g1", url := "U", icon := "I", keywords := "K" }] }
    "t2" "u" { icon := some "x" }
    { guid := "g1", parent_guid := some "g0", id_no := 0, name := "u",
      date_added := "t1", node_type := false }
    { node_id := "g1", url := "U", icon := "I", keywords := "K" } "g0"
    rfl (by decide) rfl (by decide) rfl).2 rfl
  ⟨⟨rfl, by decide, by decide, rfl⟩,
   hmain.elim fun db' hdb' => ⟨db', hdb'.1, hdb'.2.1, hdb'.2.2.1⟩⟩

/-! ### C3 -/

set_option maxHeartbeats 3200000 in
/-- C3: every successful `add_node` appends exactly one main-table row
whose fields follow the documented resolution — `guid` from the
attributes when present and non-empty else the fresh identifier;
`id_no` from the attributes when present else 0; `name` copied
verbatim; `date_added` from the attributes when present and non-empty
else the current timestamp; `node_type` from the `node_type` parameter
— together with one extension row: for a folder, `date_modified` from
the attributes when present and non-empty else the resolved
`date_added`; for a url, the `url`/`icon`/`keywords` values from the
attributes when present else the empty string. -/
theorem addNode_success_resolution (db : DB) (fresh_guid now_ts : String)
    (a : Attrs) (nt : Bool) (db' : DB)
    (h : add_node db fresh_guid now_ts a nt = .ok db') :
    ∃ row : TreeRow,
      db'.tree = db.tree ++ [row] ∧
      (∀ g, a.guid = some g → g ≠ "" → row.guid = g) ∧
      ((a.guid = none ∨ a.guid = some "") → row.guid = fresh_guid) ∧
      (∀ i, a.id_no = some i → row.id_no = i) ∧
      (a.id_no = none → row.id_no = 0) ∧
      a.name = some row.name ∧
      (∀ d, a.date_added = some d → d ≠ "" → row.date_added = d) ∧
      ((a.date_added = none ∨ a.date_added = some "") → row.date_added = now_ts) ∧
      row.node_type = nt ∧
      (nt = true →
        db'.url = db.url ∧
        ∃ dm, db'.folder = db.folder ++ [{ node_id := row.guid, date_modified := dm }] ∧
          (∀ d, a.date_modified = some d → d ≠ "" → dm = d) ∧
          ((a.date_modified = none ∨ a.date_modified = some "") → dm = row.date_added)) ∧
      (nt = false →
        db'.folder = db.folder ∧
        ∃ uu : UrlRow, db'.url = db.url ++ [uu] ∧ uu.node_id = row.guid ∧
          uu.url = a.url.getD "" ∧ uu.icon = a.icon.getD "" ∧
          uu.keywords = a.keywords.getD "") := by
  unfold add_node at h
  cases nt with
  | true =>
    simp only [eq_self_iff_true, if_true] at h
    repeat' split at h
    all_goals first
      | (injection h with h
         subst h
         refine ⟨_, rfl, ?_, ?_, ?_, ?_, ?_, ?_, ?_, rfl, ?_, ?_⟩
         · intro g hg hge
           simp_all
         · rintro (h1 | h1) <;> simp_all
         · intro i hi
           simp_all
         · intro hi
           simp_all
         · simp_all
         · intro d hd hde
           simp_all
         · rintro (h1 | h1) <;> simp_all
         · intro hnt
           refine ⟨rfl, _, rfl, ?_, ?_⟩
           · intro d hd hde
             simp_all
           · rintro (h1 | h1) <;> simp_all
         · intro hff
           exact Bool.noConfusion hff)
      | injection h
  | false =>
    simp only [Bool.false_eq_true, if_false] at h
    repeat' split at h
    all_goals first
      | (injection h with h
         subst h
         refine ⟨_, rfl, ?_, ?_, ?_, ?_, ?_, ?_, ?_, rfl, ?_, ?_⟩
         · intro g hg hge
           simp_all
         · rintro (h1 | h1) <;> simp_all
         · intro i hi
           simp_all
         · intro hi
           simp_all
         · simp_all
         · intro d hd hde
           simp_all
         · rintro (h1 | h1) <;> simp_all
         · intro htt
           exact Bool.noConfusion htt
         · intro hff
           exact ⟨rfl, _, rfl, rfl, rfl, rfl, rfl⟩)
      | injection h

/-- Witness for C3: adding a folder "A" under "roots" with all optional
attributes absent. -/
theorem addNode_success_resolution_witness :
    (add_node (create_database "g0" "t0") "g1" "t1"
        { parent_name := some "roots", name := some "A" } true =
      .ok { tree := [{ guid := "g0", parent_guid := none, id_no := 0, name := "roots",
                       date_added := "t0", node_type := true },
                     { guid := "g1", parent_guid := some "g0", id_no := 0, name := "A",
                       date_added := "t1", node_type := true }],
            folder := [{ node_id := "g0", date_modified := "t0" },
                       { node_id := "g1", date_modified := "t1" }],
            url := [] }) ∧
    (∃ row : TreeRow,
      ({ tree := [{ guid := "g0", parent_guid := none, id_no := 0, name := "roots",
                    date_added := "t0", node_type := true },
                  { guid := "g1", parent_guid := some "g0", id_no := 0, name := "A",
                    date_added := "t1", node_type := true }],
         folder := [{ node_id := "g0", date_modified := "t0" },
                    { node_id := "g1", date_modified := "t1" }],
         url := [] } : DB).tree = (create_database "g0" "t0").tree ++ [row] ∧
      (∀ g, ({ parent_name := some "roots", name := some "A" : Attrs }).guid = some g →
        g ≠ "" → row.guid = g) ∧
      ((({ parent_name := some "roots", name := some "A" : Attrs }).guid = none ∨
        ({ parent_name := some "roots", name := some "A" : Attrs }).guid = some "") →
        row.guid = "g1") ∧
      (∀ i, ({ parent_name := some "roots", name := some "A" : Attrs }).id_no = some i →
        row.id_no = i) ∧
      (({ parent_name := some "roots", name := some "A" : Attrs }).id_no = none →
        row.id_no = 0) ∧
      ({ parent_name := some "roots", name := some "A" : Attrs }).name = some row.name ∧
      (∀ d, ({ parent_name := some "roots", name := some "A" : Attrs }).date_added = some d →
        d ≠ "" → row.date_added = d) ∧
      ((({ parent_name := some "roots", name := some "A" : Attrs }).date_added = none ∨
        ({ parent_name := some "roots", name := some "A" : Attrs }).date_added = some "") →
        row.date_added = "t1") ∧
      row.node_type = true ∧
      (true = true →
        ({ tree := [{ guid := "g0", parent_guid := none, id_no := 0, name := "roots",
                      date_added := "t0", node_type := true },
                    { guid := "g1", parent_guid := some "g0", id_no := 0, name := "A",
                      date_added := "t1", node_type := true }],
           folder := [{ node_id := "g0", date_modified := "t0" },
                      { node_id := "g1", date_modified := "t1" }],
           url := [] } : DB).url = (create_database "g0" "t0").url ∧
        ∃ dm, ({ tree := [{ guid := "g0", parent_guid := none, id_no := 0, name := "roots",
                            date_added := "t0", node_type := true },
                          { guid := "g1", parent_guid := some "g0", id_no := 0, name := "A",
                            date_added := "t1", node_type := true }],
                 folder := [{ node_id := "g0", date_modified := "t0" },
                            { node_id := "g1", date_modified := "t1" }],
                 url := [] } : DB).folder =
            (create_database "g0" "t0").folder ++ [{ node_id := row.guid, date_modified := dm }] ∧
          (∀ d, ({ parent_name := some "roots", name := some "A" : Attrs }).date_modified =
            some d → d ≠ "" → dm = d) ∧
          ((({ parent_name := some "roots", name := some "A" : Attrs }).date_modified = none ∨
            ({ parent_name := some "roots", name := some "A" : Attrs }).date_modified =
              some "") → dm = row.date_added)) ∧
      (true = false →
        ({ tree := [{ guid := "g0", parent_guid := none, id_no := 0, name := "roots",
                      date_added := "t0", node_type := true },
                    { guid := "g1", parent_guid := some "g0", id_no := 0, name := "A",
                      date_added := "t1", node_type := true }],
           folder := [{ node_id := "g0", date_modified := "t0" },
                      { node_id := "g1", date_modified := "t1" }],
           url := [] } : DB).folder = (create_database "g0" "t0").folder ∧
        ∃ uu : UrlRow,
          ({ tree := [{ guid := "g0", parent_guid := none, id_no := 0, name := "roots",
                        date_added := "t0", node_type := true },
                      { guid := "g1", parent_guid := some "g0", id_no := 0, name := "A",
                        date_added := "t1", node_type := true }],
             folder := [{ node_id := "g0", date_modified := "t0" },
                        { node_id := "g1", date_modified := "t1" }],
             url := [] } : DB).url = (create_database "g0" "t0").url ++ [uu] ∧
          uu.node_id = row.guid ∧
          uu.url = ({ parent_name := some "roots", name := some "A" : Attrs }).url.getD "" ∧
          uu.icon = ({ parent_name := some "roots", name := some "A" : Attrs }).icon.getD "" ∧
          uu.keywords =
            ({ parent_name := some "roots", name := some "A" : Attrs }).keywords.getD "")) :=
  ⟨by decide,
   addNode_success_resolution (create_database "g0" "t0") "g1" "t1"
     { parent_name := some "roots", name := some "A" } true
     { tree := [{ guid := "g0", parent_guid := none, id_no := 0, name := "roots",
                  date_added := "t0", node_type := true },
                { guid := "g1", parent_guid := some "g0", id_no := 0, name := "A",
                  date_added := "t1", node_type := true }],
       folder := [{ node_id := "g0", date_modified := "t0" },
                  { node_id := "g1", date_modified := "t1" }],
       url := [] }
     (by decide)⟩

end BmConv
